import Mathlib

/-!
# Verification of the micrometa dataset / mosaic metadata model

Shallow embedding of the core of `micrometa` (dataset.py, fluoview.py,
experiment.py).  Python floats are modelled by exact rationals `ℚ`; Python
dicts holding the image dimensions are modelled by a fixed structure; the
filesystem and the vendor metadata files are passed in as explicit
environments.  Fallible Python code (raising exceptions) is modelled with
`Except`.
-/

/-- The dimension dict of an image dataset
(`ImageData._dim`, keys B/C/T/X/Y/Z, dataset.py). -/
structure Dims where
  B : Int
  C : Int
  T : Int
  X : Int
  Y : Int
  Z : Int
deriving DecidableEq, Repr

/-- Split a character list at every occurrence of the separator character
(the model of Python's `str.split` / `String.splitOn` for one-character
separators). -/
def splitOnChar (sep : Char) : List Char → List (List Char)
  | [] => [[]]
  | c :: rest =>
    match splitOnChar sep rest with
    | [] => [[c]]
    | h :: t => if c = sep then [] :: h :: t else (c :: h) :: t

/-- Join character lists with a separator character. -/
def joinSep (sep : Char) : List (List Char) → List Char
  | [] => []
  | [x] => x
  | x :: y :: t => x ++ sep :: joinSep sep (y :: t)

/-- One pass of Python's `str.replace` over a character list: substitute
every non-overlapping occurrence of `pat` left to right.  The fuel argument
(called with the list length) only serves structural termination; one
character at least is consumed per step, so it never runs out. -/
def replaceGo (pat rep : List Char) : Nat → List Char → List Char
  | 0, l => l
  | fuel + 1, l =>
    match l with
    | [] => []
    | c :: rest =>
      if pat ≠ [] ∧ pat.isPrefixOf l then
        rep ++ replaceGo pat rep fuel (l.drop pat.length)
      else
        c :: replaceGo pat rep fuel rest

/-- Python's `str.replace` (for a non-empty pattern; the `micrometa` call
sites never pass an empty one). -/
def pyReplace (s pat rep : String) : String :=
  String.mk (replaceGo pat.toList rep.toList s.toList.length s.toList)

/-- Result of the external `imcflibs.pathtools.parse_path`.
Modelled from the spec (§6): a structured location with directory,
base name, extension, original form and full form. -/
structure PathInfo where
  orig : String
  full : String
  path : String
  fname : String
  ext : String
deriving DecidableEq, Repr

/-- Modelled from the spec (§6 external interface, `parse_path`): split a path
string into directory / file name / extension components; the original and
full forms keep the input string. -/
def parse_path (p : String) : PathInfo :=
  let cs := p.toList
  let comps := splitOnChar '/' cs
  let fname := comps.getLastD []
  let dir := joinSep '/' comps.dropLast
  let parts := splitOnChar '.' fname
  let ext := if parts.length ≤ 1 then [] else '.' :: parts.getLastD []
  { orig := p, full := p, path := String.mk (dir ++ ['/']),
    fname := String.mk fname, ext := String.mk ext }

/-- `ImageDataOlympus.validate_filepath` (dataset.py, lines 172-200): try the
literal path first; if missing, retry once with the `_01` suffix repair
(`orig.replace(ext, '_01' + ext)`, which substitutes every occurrence of the
extension substring); raise `IOError` if still absent.  The filesystem is the
explicit predicate `fs` (the external `exists`). -/
def validate_filepath (fs : String → Bool) (storage : PathInfo) : Except String PathInfo :=
  let ext := storage.ext
  let fpath := if fs storage.full then storage
    else parse_path (pyReplace storage.orig ext ("_01" ++ ext))
  if fs fpath.full then Except.ok fpath
  else Except.error ("IOError: file not found: " ++ fpath.full)

/-- The spec's description of the repair heuristic, written from the spec's
words (for refinement comparison only): insert the fixed `_01` disambiguator
before the file extension. -/
def specRepairedPath (p : String) : String :=
  let ext := (parse_path p).ext.toList
  String.mk (p.toList.take (p.toList.length - ext.length) ++ '_' :: '0' :: '1' :: ext)

/-- State of an `ImageData` / `ImageDataOlympus` object: the lazily parsed
dimension cache `_dim`, the `position` dict and `supplement['tileno']`
(dataset.py, `ImageData.__init__` / `ImageDataOlympus.__init__`: `_dim` is
overridden to `None` to mark it as not yet known). -/
structure ImageDataSt where
  dim : Option Dims
  stage : Option (Option ℚ × Option ℚ)
  tileno : Option (Int × Int × Option Int)
  relative : Option (ℚ × ℚ)
deriving DecidableEq, Repr

/-- A freshly constructed `ImageDataOlympus`: no dimensions parsed yet,
no position information, no tile numbers. -/
def ImageDataSt.fresh : ImageDataSt :=
  { dim := none, stage := none, tileno := none, relative := none }

/-- `ImageData.set_stagecoords` (dataset.py line 128). -/
def set_stagecoords (coords : Option ℚ × Option ℚ) (st : ImageDataSt) : ImageDataSt :=
  { st with stage := some coords }

/-- `ImageData.set_tilenumbers` (dataset.py line 137): store the grid indices
in `supplement['tileno']`. -/
def set_tilenumbers (tx ty : Int) (tz : Option Int) (st : ImageDataSt) : ImageDataSt :=
  { st with tileno := some (tx, ty, tz) }

/-- `ImageDataOlympus.get_dimensions` (dataset.py lines 253-265): lazy parsing
of the image dimensions.  The format-specific parser `_parse_dimensions` is
abstracted by its (deterministic) result `parse`; the returned `Bool` records
whether the parser was invoked by this call. -/
def get_dimensions (parse : Dims) (st : ImageDataSt) : ImageDataSt × Dims × Bool :=
  match st.dim with
  | none => ({ st with dim := some parse }, parse, true)
  | some d => (st, d, false)

/-- `ImageDataOlympus.set_relpos` (dataset.py lines 267-284): compute the
relative pixel position from the tile overlap (in percent), the parsed X/Y
sizes and the grid indices stored in `supplement['tileno']` (a missing
`tileno` key is a `KeyError`). -/
def set_relpos (parse : Dims) (overlap : ℚ) (st : ImageDataSt) : Except String ImageDataSt :=
  let ratio := (100 - overlap) / 100
  let (st1, d, _) := get_dimensions parse st
  let (st2, d2, _) := get_dimensions parse st1
  match st2.tileno with
  | none => Except.error "KeyError: tileno"
  | some (tileno_x, tileno_y, _) =>
    let pos_x := (d.X : ℚ) * ratio * (tileno_x : ℚ)
    let pos_y := (d2.Y : ℚ) * ratio * (tileno_y : ℚ)
    Except.ok { st2 with relative := some (pos_x, pos_y) }

/-- Python whitespace, as stripped by `int(...)`. -/
def isSpaceChar (c : Char) : Bool :=
  c.toNat = 32 || (9 ≤ c.toNat && c.toNat ≤ 13)

/-- Decimal value of a non-empty digit string. -/
def digitsVal (ds : List Char) : Option Nat :=
  if ds.isEmpty then none
  else
    ds.foldl
      (fun acc c =>
        acc.bind fun n =>
          if 48 ≤ c.toNat ∧ c.toNat ≤ 57 then some (n * 10 + (c.toNat - 48)) else none)
      (some 0)

/-- Python's `int(str)` conversion on characters: optional surrounding
whitespace, optional sign, decimal digits. -/
def pyIntChars (cs : List Char) : Option Int :=
  let t := ((cs.dropWhile isSpaceChar).reverse.dropWhile isSpaceChar).reverse
  match t with
  | '-' :: ds => (digitsVal ds).map (fun n => -(n : Int))
  | '+' :: ds => (digitsVal ds).map (fun n => (n : Int))
  | ds => (digitsVal ds).map (fun n => (n : Int))

/-- Python `int(...)` applied to a metadata string (raises `ValueError` when
the string is not an integer literal). -/
def pyInt (s : String) : Except String Int :=
  match pyIntChars s.toList with
  | some n => Except.ok n
  | none => Except.error ("ValueError: invalid literal for int(): " ++ s)

/-- `ImageDataOlympus._parse_dimensions` (dataset.py lines 202-251): read the
nine metadata fields from the ConfigParser table `get` (a missing option is a
`NoOptionError`, re-raised as `ValueError`); check the three axis-name fields
against their fixed sentinels and zero the corresponding dimension on
mismatch; convert the remaining values with `int()`. -/
def parse_dimensions (get : String → String → Option String) : Except String Dims := do
  let fetch : String → String → Except String String := fun sec key =>
    match get sec key with
    | some v => Except.ok v
    | none => Except.error ("ValueError: NoOptionError " ++ sec ++ "/" ++ key)
  let dim_b ← fetch "Reference Image Parameter" "ValidBitCounts"
  let dim_x ← fetch "Reference Image Parameter" "ImageHeight"
  let dim_y ← fetch "Reference Image Parameter" "ImageWidth"
  let dim_z ← fetch "Axis 3 Parameters Common" "MaxSize"
  let axis_z ← fetch "Axis 3 Parameters Common" "AxisName"
  let dim_c ← fetch "Axis 2 Parameters Common" "MaxSize"
  let axis_c ← fetch "Axis 2 Parameters Common" "AxisName"
  let dim_t ← fetch "Axis 4 Parameters Common" "MaxSize"
  let axis_t ← fetch "Axis 4 Parameters Common" "AxisName"
  -- check if we got the right axis for Z/Ch/T, set to 0 otherwise
  -- (the original value, possibly non-numeric, is discarded on mismatch):
  let zVal ← if axis_z = "\"Z\"" then pyInt dim_z else pure 0
  let cVal ← if axis_c = "\"Ch\"" then pyInt dim_c else pure 0
  let tVal ← if axis_t = "\"T\"" then pyInt dim_t else pure 0
  let bVal ← pyInt dim_b
  let xVal ← pyInt dim_x
  let yVal ← pyInt dim_y
  pure { B := bVal, C := cVal, T := tVal, X := xVal, Y := yVal, Z := zVal }

/-- State of a `MosaicDataCuboid` (dataset.py lines 689-715): grid shape,
overlap amount and overlap unit (subvolumes are modelled separately in
`MosaicSubvols` for `files_and_coords`). -/
structure MosaicCuboidSt where
  dimX : Int
  dimY : Int
  dimZ : Int
  overlap : ℚ
  overlap_units : String
deriving DecidableEq, Repr

/-- `MosaicDataCuboid.__init__` (dataset.py lines 693-715): the overlap is
initialized to `0` with unit `'px'`. -/
def MosaicCuboidSt.init (dx dy dz : Int) : MosaicCuboidSt :=
  { dimX := dx, dimY := dy, dimZ := dz, overlap := 0, overlap_units := "px" }

/-- `MosaicDataCuboid.set_overlap` (dataset.py lines 717-728): validate the
unit against the allowed list (a `TypeError` otherwise), then store value and
unit. -/
def set_overlap (value : ℚ) (units : String) (st : MosaicCuboidSt) :
    Except String MosaicCuboidSt :=
  let units_allowed := ["px", "pct", "um", "nm", "mm"]
  if units ∈ units_allowed then
    Except.ok { st with overlap := value, overlap_units := units }
  else
    Except.error ("TypeError: Unknown overlap unit given: " ++ units)

/-- `MosaicDataCuboid.get_overlap` (dataset.py lines 730-739): only `'pct'`
may be requested (a `TypeError` otherwise); a request in a unit different
from the stored one is a `NotImplementedError`; otherwise the stored value is
returned unchanged. -/
def get_overlap (st : MosaicCuboidSt) (units : String) : Except String ℚ :=
  let units_allowed := ["pct"]
  if units ∉ units_allowed then
    Except.error ("TypeError: Unknown overlap unit requested: " ++ units)
  else if units ≠ st.overlap_units then
    Except.error "NotImplementedError: Unit conversion not implemented!"
  else
    Except.ok st.overlap

/-- Apply a sequence of `set_overlap` calls to a `MosaicDataCuboid`; a call
that raises (illegal unit) leaves the state unchanged.  The reachable states
of a cuboid are exactly `applyOverlapOps ops (MosaicCuboidSt.init ..)`. -/
def applyOverlapOps (ops : List (ℚ × String)) (st : MosaicCuboidSt) : MosaicCuboidSt :=
  ops.foldl
    (fun s op =>
      match set_overlap op.1 op.2 s with
      | Except.ok s' => s'
      | Except.error _ => s)
    st

/-- A mosaic subvolume as seen by `files_and_coords`: its storage full path
and its `position['relative']` (a tuple of floats, or `None`). -/
structure SubVolEntry where
  full : String
  relative : Option (List ℚ)
deriving DecidableEq, Repr

/-- The parts of a `MosaicData` that `files_and_coords` reads: the mosaic's
storage base path and the ordered list of subvolumes (dataset.py lines
614-641). -/
structure MosaicSubvols where
  path : String
  subvol : List SubVolEntry
deriving DecidableEq, Repr

/-- The external `imcflibs.strtools` prefix-stripping helper.  Modelled from
the spec (§4.1): the subvolume location is made relative to the mosaic's
storage base. -/
def stripPre (s pre : String) : String :=
  if pre.toList.isPrefixOf s.toList then String.mk (s.toList.drop pre.toList.length) else s

/-- One 2- or 3-component tile of `files_and_coords`. -/
abbrev Tile := String × List ℚ

/-- Sort key `x[1][0]` of `files_and_coords` (first coordinate). -/
def tileKeyX (t : Tile) : ℚ := t.2.getD 0 0

/-- Sort key `x[1][1]` of `files_and_coords` (second coordinate). -/
def tileKeyY (t : Tile) : ℚ := t.2.getD 1 0

/-- The relation of Python's stable `sorted(key=lambda x: x[1][0],
reverse=True)`: first coordinate descending. -/
def sortByX : Tile → Tile → Prop := fun a b => tileKeyX b ≤ tileKeyX a

/-- The relation of Python's stable `sorted(key=lambda x: x[1][1],
reverse=True)`: second coordinate descending. -/
def sortByY : Tile → Tile → Prop := fun a b => tileKeyY b ≤ tileKeyY a

instance : DecidableRel sortByX := fun a b =>
  inferInstanceAs (Decidable (tileKeyX b ≤ tileKeyX a))

instance : DecidableRel sortByY := fun a b =>
  inferInstanceAs (Decidable (tileKeyY b ≤ tileKeyY a))

instance : IsTotal Tile sortByX :=
  ⟨fun a b => (le_total (tileKeyX b) (tileKeyX a)).imp id id⟩

instance : IsTrans Tile sortByX :=
  ⟨fun _ _ _ hab hbc => le_trans hbc hab⟩

instance : IsTotal Tile sortByY :=
  ⟨fun a b => (le_total (tileKeyY b) (tileKeyY a)).imp id id⟩

instance : IsTrans Tile sortByY :=
  ⟨fun _ _ _ hab hbc => le_trans hbc hab⟩

/-- Convert one subvolume into a `files_and_coords` tile: relative file name
with separators normalized, plus two or three coordinate components
(`pos[2]` missing is an `IndexError` caught by the fallback; fewer than two
components, or a `None` position, raises). -/
def tileOfSubvol (basePath : String) (vol : SubVolEntry) : Except String Tile :=
  let fname := pyReplace (stripPre vol.full basePath) "\\" "/"
  match vol.relative with
  | none => Except.error "TypeError: position is None"
  | some pos =>
    match pos with
    | p0 :: p1 :: p2 :: _ => Except.ok (fname, [p0, p1, p2])
    | [p0, p1] => Except.ok (fname, [p0, p1])
    | _ => Except.error "IndexError: list index out of range"

/-- `MosaicData.files_and_coords` (dataset.py lines 643-685): collect the
relative file name and coordinates of every subvolume; when `sort` is set,
apply Python's stable `sorted` twice — first by the first coordinate
descending, then by the second coordinate descending (Python's stable sort is
modelled by `List.insertionSort`, which is stable). -/
def files_and_coords (m : MosaicSubvols) (sort : Bool) :
    Except String (List Tile) := do
  let tiles ← m.subvol.mapM (tileOfSubvol m.path)
  if sort then
    pure (List.insertionSort sortByY (List.insertionSort sortByX tiles))
  else
    pure tiles

/-- The bottom-right-to-top-left scan order of the claim: `a` before `b`
means `a.y > b.y`, or `a.y = b.y` and `a.x ≥ b.x`. -/
def scanOrder : Tile → Tile → Prop := fun a b =>
  tileKeyY b < tileKeyY a ∨ (tileKeyY a = tileKeyY b ∧ tileKeyX b ≤ tileKeyX a)

/-- Membership in Python's `string.printable` (digits, letters, punctuation,
space and the whitespace controls `\t\n\x0b\x0c\r`): ASCII `0x20`-`0x7e` or
`0x09`-`0x0d`. -/
def printableChar (c : Char) : Bool :=
  (32 ≤ c.toNat && c.toNat ≤ 126) || (9 ≤ c.toNat && c.toNat ≤ 13)

/-- The two XML tags searched by `ImageDataOIR._get_xml_sections`
(dataset.py lines 481-484). -/
def tagFrame : List Char := "lsmframe:frameProperties".toList

/-- Second search tag of `_get_xml_sections`. -/
def tagImage : List Char := "lsmimage:imageProperties".toList

/-- The XML-declaration marker a candidate run must contain. -/
def xmlDeclMark : List Char := "<?xml".toList

/-- `collected[:collected.rfind('>') + 1]`: truncate a run after its last
`>` character (empty when the run has no `>`). -/
def truncAfterLastGt (cs : List Char) : List Char :=
  match cs.reverse.findIdx? (· == '>') with
  | none => []
  | some k => cs.take (cs.length - k)

/-- Python's substring test `pat in l` on character sequences. -/
def containsSub (pat l : List Char) : Bool :=
  l.tails.any (fun t => pat.isPrefixOf t)

/-- The `found` dict of `_get_xml_sections`: one optional fragment per
searched tag. -/
structure ScanFound where
  frame : Option (List Char)
  image : Option (List Char)
deriving DecidableEq, Repr

/-- `len(found)`: number of tags found so far. -/
def ScanFound.count (f : ScanFound) : Nat :=
  (if f.frame.isSome then 1 else 0) + (if f.image.isSome then 1 else 0)

/-- Processing of one completed run of printable characters in
`_get_xml_sections` (dataset.py lines 501-524): discard the run unless it is
long enough and holds an XML declaration; otherwise check the two search tags
in order, store the truncated fragment for each tag whose opening marker
occurs in the run, and return early (`Sum.inr`) as soon as both tags are
found; `Sum.inl` continues scanning with the updated `found` dict. -/
def processRun (collected : List Char) (found : ScanFound) :
    ScanFound ⊕ ScanFound :=
  if collected.length < 100 || !(containsSub xmlDeclMark collected) then
    Sum.inl found
  else
    let found1 :=
      if containsSub ('<' :: tagFrame) collected then
        { found with frame := some (truncAfterLastGt collected) }
      else found
    if containsSub ('<' :: tagFrame) collected && found1.count == 2 then
      Sum.inr found1
    else
      let found2 :=
        if containsSub ('<' :: tagImage) collected then
          { found1 with image := some (truncAfterLastGt collected) }
        else found1
      if containsSub ('<' :: tagImage) collected && found2.count == 2 then
        Sum.inr found2
      else
        Sum.inl found2

/-- The character loop of `_get_xml_sections` over the remaining input
stream: printable characters extend the current run; a non-printable
character closes the run and hands it to `processRun`.  Exhausting the input
before both fragments are found is the `ValueError` raised on an empty chunk
read (dataset.py lines 487-492); note a run still open at end of input is
never examined. -/
def scanGo : List Char → List Char → ScanFound → Except String ScanFound
  | [], _, _ => Except.error "ValueError: Couldn't find all requested XML blocks!"
  | c :: rest, collected, found =>
    if printableChar c then
      scanGo rest (collected ++ [c]) found
    else
      match processRun collected found with
      | Sum.inr res => Except.ok res
      | Sum.inl f' => scanGo rest [] f'

/-- `ImageDataOIR._get_xml_sections` (dataset.py lines 459-525) on the full
byte stream of the `.oir` file (the 1-MiB chunking does not alter the
per-character semantics: the run buffer survives chunk boundaries). -/
def get_xml_sections (stream : List Char) : Except String ScanFound :=
  scanGo stream [] { frame := none, image := none }

/-- Collapse the early-return marker of `processRun` to the resulting
`found` dict. -/
def runResult : ScanFound ⊕ ScanFound → ScanFound := Sum.elim id id

/-- The fields of one `<ImageInfo>` element of a Dialect A (`MATL_Mosaic.log`)
mosaic subtree that `FluoViewMosaic.add_mosaic` reads (fluoview.py lines
464-481). -/
structure ImageInfoXml where
  filename : String
  xpos : ℚ
  ypos : ℚ
  xno : Int
  yno : Int
  no : Int
deriving DecidableEq, Repr

/-- The fields of one `<Mosaic>` subtree of a Dialect A project file
(fluoview.py lines 443-459). -/
structure MosaicTreeXml where
  attrNo : Int
  xscan : String
  yscan : String
  ximages : Int
  yimages : Int
  indexRatio : ℚ
  images : List ImageInfoXml
deriving DecidableEq, Repr

/-- Outcome of one per-tile parse inside `FluoViewMosaic.add_mosaic`:
a `notFound` failure is the `IOError` the enclosing loop catches (it carries
the offending tile's file name used by the warning); any other exception is
uncaught there and aborts the whole project parse. -/
inductive TileFail where
  | notFound (fname : String) (msg : String)
  | fatal (msg : String)
deriving DecidableEq, Repr

/-- A parsed Dialect A mosaic dataset: the cuboid (grid shape + overlap) and
its subvolumes in file order. -/
structure MosaicDSA where
  cuboid : MosaicCuboidSt
  subvols : List ImageDataSt
  index : Int
deriving DecidableEq, Repr

/-- The per-tile body of the `ImageInfo` loop in `FluoViewMosaic.add_mosaic`
(fluoview.py lines 464-481): dispatch the reader on the file extension (an
unknown extension raises outside the `try`, hence fatal); instantiate the
reader, whose `validate_filepath` raises the `IOError` caught by the loop;
set stage coordinates, tile numbers and relative position (dimension parsing
is the environment `dimsOf`; its `ValueError` is not an `IOError` and is
fatal). -/
def parseTileA (fs : String → Bool) (dimsOf : String → Except String Dims)
    (basePath : String) (cub : MosaicCuboidSt) (img : ImageInfoXml) :
    Except TileFail ImageDataSt :=
  if img.filename.takeRight 3 ≠ "oif" ∧ img.filename.takeRight 3 ≠ "oib" then
    Except.error (TileFail.fatal ("IOError: Unknown dataset type: " ++ img.filename))
  else
    match validate_filepath fs (parse_path (basePath ++ img.filename)) with
    | Except.error e => Except.error (TileFail.notFound img.filename e)
    | Except.ok storage =>
      let st := set_tilenumbers img.xno img.yno none
        (set_stagecoords (some img.xpos, some img.ypos) ImageDataSt.fresh)
      match get_overlap cub "pct" with
      | Except.error e => Except.error (TileFail.fatal e)
      | Except.ok percent =>
        match dimsOf storage.full with
        | Except.error e => Except.error (TileFail.fatal e)
        | Except.ok d =>
          match set_relpos d percent st with
          | Except.error e => Except.error (TileFail.fatal e)
          | Except.ok st' => Except.ok st'

/-- Run the per-tile step over the `ImageInfo` elements in order, stopping at
the first failure (the Python loop `break`s on the first caught `IOError`,
and an uncaught exception aborts immediately). -/
def collectTilesA (step : ImageInfoXml → Except TileFail ImageDataSt) :
    List ImageInfoXml → Except TileFail (List ImageDataSt)
  | [] => Except.ok []
  | img :: rest =>
    match step img with
    | Except.error e => Except.error e
    | Except.ok sv =>
      match collectTilesA step rest with
      | Except.error e => Except.error e
      | Except.ok svs => Except.ok (sv :: svs)

/-- `FluoViewMosaic.add_mosaic` (fluoview.py lines 433-491): assert the scan
directions, build the `MosaicDataCuboid` with overlap `100 - IndexRatio` in
percent, then run the per-tile loop.  A caught `IOError` cancels the entire
mosaic: the result is `none` plus the two warnings (the second naming the
first offending tile); otherwise the fully populated mosaic is returned.
Fatal errors propagate as `Except.error`. -/
def add_mosaic (fs : String → Bool) (dimsOf : String → Except String Dims)
    (basePath : String) (tree : MosaicTreeXml) (index : Int) :
    Except String (Option MosaicDSA × List String) :=
  let idx := if index = -1 then tree.attrNo else index
  if tree.xscan ≠ "LeftToRight" ∨ tree.yscan ≠ "TopToBottom" then
    Except.error "AssertionError: scan direction"
  else
    match set_overlap (100 - tree.indexRatio) "pct"
        (MosaicCuboidSt.init tree.ximages tree.yimages 1) with
    | Except.error e => Except.error e
    | Except.ok cub =>
      match collectTilesA (parseTileA fs dimsOf basePath cub) tree.images with
      | Except.ok svs => Except.ok (some { cuboid := cub, subvols := svs, index := idx }, [])
      | Except.error (TileFail.notFound fname _) =>
        Except.ok (none, ["Mosaic " ++ toString idx ++ ": incomplete subvolumes, SKIPPING!",
                          "First incomplete/missing subvolume: " ++ fname])
      | Except.error (TileFail.fatal e) => Except.error e

/-- `FluoViewMosaic.add_mosaics` (fluoview.py lines 428-431): run
`add_mosaic` on every `<Mosaic>` subtree in file order, appending each
successfully parsed mosaic to the experiment (warnings are collected in
order; there is no error handling here, so a fatal per-tile error aborts). -/
def add_mosaics (fs : String → Bool) (dimsOf : String → Except String Dims)
    (basePath : String) : List MosaicTreeXml → Except String (List MosaicDSA × List String)
  | [] => Except.ok ([], [])
  | t :: ts =>
    match add_mosaic fs dimsOf basePath t (-1) with
    | Except.error e => Except.error e
    | Except.ok (o, ws) =>
      match add_mosaics fs dimsOf basePath ts with
      | Except.error e => Except.error e
      | Except.ok (ds, ws') => Except.ok (o.toList ++ ds, ws ++ ws')

/-- The fields of one `<matl:area>` element of a Dialect B
(`matl.omp2info`) mosaic group that `FluoView3kMosaic.parse_area` reads
(fluoview.py lines 282-291). -/
structure AreaXml where
  image : String
  xIndex : Int
  yIndex : Int
deriving DecidableEq, Repr

/-- The initial `FluoView3kMosaic.tile_size` cache (fluoview.py lines 53-56):
only the X/Y keys exist and hold the sentinel `-1`; the remaining fields are
never read while the sentinel is in place. -/
def fv3kInitTileSize : Dims :=
  { B := 0, C := 0, T := 0, X := -1, Y := -1, Z := 0 }

/-- `FluoView3kMosaic.parse_area` (fluoview.py lines 264-313) on the success
path: build the tile's `ImageDataOIR` state (dimension parsing lazy, stage
coordinates `None`, grid indices from the XML); with the common-tile-size
option, parse the first tile's dimensions into the `tile_size` cache when it
still holds the sentinel and force the tile's `_dim` to the cache; then
`set_relpos`.  The tile's dimension parser is the environment `dimsOf`; the
returned `Nat` counts how often this call invoked it (via
`get_dimensions`). -/
def parse_area (dimsOf : String → Dims) (common : Bool) (overlap : ℚ)
    (tileSize : Dims) (ar : AreaXml) : Dims × Except String ImageDataSt × Nat :=
  let st0 := set_tilenumbers ar.xIndex ar.yIndex none
    (set_stagecoords (none, none) ImageDataSt.fresh)
  let parse := dimsOf ar.image
  let (tileSize1, st1, n1) :=
    if common then
      if tileSize.X = -1 ∨ tileSize.Y = -1 then
        let (st', d, invoked) := get_dimensions parse st0
        (d, { st' with dim := some d }, if invoked then 1 else 0)
      else
        (tileSize, { st0 with dim := some tileSize }, 0)
    else (tileSize, st0, 0)
  -- set_relpos(overlap): it calls get_dimensions twice; count the parser
  -- invocations of those two calls explicitly (get_dimensions is pure):
  let (stA, _, invA) := get_dimensions parse st1
  let (_, _, invB) := get_dimensions parse stA
  let nRelpos := (if invA then 1 else 0) + (if invB then 1 else 0)
  (tileSize1, set_relpos parse overlap st1, n1 + nRelpos)

/-- The per-area iteration of `FluoView3kMosaic.assemble_mosaic_ds`
(fluoview.py lines 240-262) restricted to the `parse_area` calls: thread the
`tile_size` cache through the areas in order, collecting each tile's result
and parser-invocation count. -/
def parse_areas (dimsOf : String → Dims) (common : Bool) (overlap : ℚ) :
    Dims → List AreaXml → Dims × List (Except String ImageDataSt × Nat)
  | ts, [] => (ts, [])
  | ts, a :: rest =>
    let (ts1, sv, n) := parse_area dimsOf common overlap ts a
    let (ts2, out) := parse_areas dimsOf common overlap ts1 rest
    (ts2, (sv, n) :: out)

/-- The spec's geometry formula (§4.4): per axis,
`tile_size_px * ((100 - overlap_pct) / 100) * grid_index`. -/
def relpos_formula (d : Dims) (overlap : ℚ) (tx ty : Int) : ℚ × ℚ :=
  ((d.X : ℚ) * ((100 - overlap) / 100) * (tx : ℚ),
   (d.Y : ℚ) * ((100 - overlap) / 100) * (ty : ℚ))

/-- A concrete 117-character printable run holding an XML declaration and a
complete frame-properties fragment followed by trailing garbage, used to
exercise the scanner. -/
def oirDemoRun : List Char :=
  ("<?xml version=1.0?><lsmframe:frameProperties>data</lsmframe:frameProperties>"
    ++ "xxxxxxxxxxxxxxxxxxxxxxxxxxxxxxxxxxxxxxxx").toList

/-- A scanner state in which the image-properties fragment was already found
earlier in the stream. -/
def oirDemoFound : ScanFound := { frame := none, image := some ['q'] }

/-! ## Theorems -/

/-- C1: with parsed dimensions and tile indices set, `set_relpos(overlap)`
stores, per axis, `tile_size_px * ((100 - overlap) / 100) * grid_index` as
the relative position, and the position component is zero whenever the grid
index is zero. -/
theorem C1_set_relpos_formula (parse : Dims) (overlap : ℚ) (st : ImageDataSt)
    (d : Dims) (tx ty : Int) (tz : Option Int)
    (hdim : st.dim = some d) (htile : st.tileno = some (tx, ty, tz)) :
    set_relpos parse overlap st =
      Except.ok { st with relative := some (relpos_formula d overlap tx ty) } ∧
    (tx = 0 → (relpos_formula d overlap tx ty).1 = 0) ∧
    (ty = 0 → (relpos_formula d overlap tx ty).2 = 0) := by
  refine ⟨?_, ?_, ?_⟩
  · simp [set_relpos, get_dimensions, hdim, htile, relpos_formula]
  · intro h; subst h; simp [relpos_formula]
  · intro h; subst h; simp [relpos_formula]

/-- Witness for C1: tile size `(100, 100)`, tile indices `(1, 2)`, stage
coordinates `(10.0, 20.0)`, overlap `10` yields relative position
`(90.0, 180.0)`. -/
theorem C1_set_relpos_witness :
    set_relpos { B := 16, C := 1, T := 1, X := 100, Y := 100, Z := 1 } 10
      { dim := some { B := 16, C := 1, T := 1, X := 100, Y := 100, Z := 1 },
        stage := some (some 10, some 20), tileno := some (1, 2, none), relative := none } =
      Except.ok
        { dim := some { B := 16, C := 1, T := 1, X := 100, Y := 100, Z := 1 },
          stage := some (some 10, some 20), tileno := some (1, 2, none),
          relative := some (90, 180) } := by
  have h := C1_set_relpos_formula
    { B := 16, C := 1, T := 1, X := 100, Y := 100, Z := 1 } 10
    { dim := some { B := 16, C := 1, T := 1, X := 100, Y := 100, Z := 1 },
      stage := some (some 10, some 20), tileno := some (1, 2, none), relative := none }
    { B := 16, C := 1, T := 1, X := 100, Y := 100, Z := 1 } 1 2 none rfl rfl
  rw [h.1]
  have hr : relpos_formula { B := 16, C := 1, T := 1, X := 100, Y := 100, Z := 1 } 10 1 2 =
      ((90 : ℚ), (180 : ℚ)) := by
    unfold relpos_formula
    norm_num
  rw [hr]

/-- C5: `get_dimensions` is memoized — a first call on an unparsed dataset
invokes the parser and caches its result, and a second call returns the same
value without invoking the parser again (so two calls invoke the parser at
most once). -/
theorem C5_get_dimensions_memoized (parse : Dims) (st : ImageDataSt) :
    (get_dimensions parse ((get_dimensions parse st).1)).2.1 = (get_dimensions parse st).2.1 ∧
    (get_dimensions parse ((get_dimensions parse st).1)).2.2 = false ∧
    ((if (get_dimensions parse st).2.2 then 1 else 0) +
        (if (get_dimensions parse ((get_dimensions parse st).1)).2.2 then 1 else 0) ≤ 1) ∧
    (st.dim = none →
      (get_dimensions parse st).2.2 = true ∧ (get_dimensions parse st).1.dim = some parse) := by
  cases h : st.dim <;> simp [get_dimensions, h]

/-- Witness for C5 at a freshly constructed dataset: the first call invokes
the parser, the second call does not and returns the same dimensions. -/
theorem C5_get_dimensions_witness :
    ((get_dimensions { B := 8, C := 2, T := 1, X := 64, Y := 32, Z := 4 }
        ((get_dimensions { B := 8, C := 2, T := 1, X := 64, Y := 32, Z := 4 }
          ImageDataSt.fresh).1)).2.1 =
      (get_dimensions { B := 8, C := 2, T := 1, X := 64, Y := 32, Z := 4 }
        ImageDataSt.fresh).2.1) ∧
    (get_dimensions { B := 8, C := 2, T := 1, X := 64, Y := 32, Z := 4 }
        ((get_dimensions { B := 8, C := 2, T := 1, X := 64, Y := 32, Z := 4 }
          ImageDataSt.fresh).1)).2.2 = false ∧
    (get_dimensions { B := 8, C := 2, T := 1, X := 64, Y := 32, Z := 4 }
        ImageDataSt.fresh).2.2 = true := by
  have h := C5_get_dimensions_memoized
    { B := 8, C := 2, T := 1, X := 64, Y := 32, Z := 4 } ImageDataSt.fresh
  exact ⟨h.1, h.2.1, (h.2.2.2 rfl).1⟩

/-- Helper: a successful `set_overlap` stores exactly the requested value and
unit. -/
theorem set_overlap_ok_fields {v : ℚ} {u : String} {st s' : MosaicCuboidSt}
    (h : set_overlap v u st = Except.ok s') :
    s'.overlap = v ∧ s'.overlap_units = u := by
  simp only [set_overlap] at h
  split at h
  · cases h
    exact ⟨rfl, rfl⟩
  · cases h

/-- Helper: the overlap unit of any state reached through `set_overlap`
calls is the initial unit, or was explicitly requested by one of the calls. -/
theorem applyOverlapOps_units (ops : List (ℚ × String)) (st : MosaicCuboidSt) :
    (applyOverlapOps ops st).overlap_units = st.overlap_units ∨
      ∃ v, (v, (applyOverlapOps ops st).overlap_units) ∈ ops := by
  induction ops generalizing st with
  | nil => exact Or.inl rfl
  | cons op ops ih =>
    have hstep : applyOverlapOps (op :: ops) st =
        applyOverlapOps ops
          (match set_overlap op.1 op.2 st with
            | Except.ok s' => s'
            | Except.error _ => st) := rfl
    rw [hstep]
    cases hso : set_overlap op.1 op.2 st with
    | error e =>
      simp only [hso]
      rcases ih st with h | ⟨v, hv⟩
      · exact Or.inl h
      · exact Or.inr ⟨v, List.mem_cons_of_mem _ hv⟩
    | ok s' =>
      simp only [hso]
      rcases ih s' with h | ⟨v, hv⟩
      · rw [h, (set_overlap_ok_fields hso).2]
        exact Or.inr ⟨op.1, by simp⟩
      · exact Or.inr ⟨v, List.mem_cons_of_mem _ hv⟩

/-- Helper: a successful `get_overlap` implies the requested unit is `'pct'`
and equals the stored unit. -/
theorem get_overlap_ok_units {st : MosaicCuboidSt} {u : String}
    (h : (get_overlap st u).isOk = true) :
    u = "pct" ∧ st.overlap_units = "pct" := by
  by_cases hu : u = "pct"
  · subst hu
    by_cases h2 : ("pct" : String) = st.overlap_units
    · exact ⟨rfl, h2.symm⟩
    · exfalso
      have he : get_overlap st "pct" =
          Except.error "NotImplementedError: Unit conversion not implemented!" := by
        simp [get_overlap, h2]
      rw [he, show (Except.error "NotImplementedError: Unit conversion not implemented!" :
        Except String ℚ).isOk = false from rfl] at h
      exact Bool.noConfusion h
  · exfalso
    have he : get_overlap st u =
        Except.error ("TypeError: Unknown overlap unit requested: " ++ u) := by
      simp [get_overlap, hu]
    rw [he, show (Except.error ("TypeError: Unknown overlap unit requested: " ++ u) :
      Except String ℚ).isOk = false from rfl] at h
    exact Bool.noConfusion h

/-- C8: requesting the overlap in a unit different from the unit it was
stored with raises an error rather than converting; requesting `'pct'` when
the stored unit is `'pct'` returns the stored value unchanged. -/
theorem C8_get_overlap_no_conversion (st : MosaicCuboidSt) (units : String) :
    (units ≠ st.overlap_units → ∃ msg, get_overlap st units = Except.error msg) ∧
    (st.overlap_units = "pct" → get_overlap st "pct" = Except.ok st.overlap) := by
  constructor
  · intro h
    by_cases hu : units = "pct"
    · subst hu
      refine ⟨"NotImplementedError: Unit conversion not implemented!", ?_⟩
      simp [get_overlap, h]
    · refine ⟨"TypeError: Unknown overlap unit requested: " ++ units, ?_⟩
      simp [get_overlap, hu]
  · intro h
    simp [get_overlap, h]

/-- Witness for C8: after `set_overlap(10, 'pct')`, requesting `'um'` fails
and requesting `'pct'` returns `10`. -/
theorem C8_get_overlap_witness :
    set_overlap 10 "pct" (MosaicCuboidSt.init 2 2 1) =
      Except.ok { dimX := 2, dimY := 2, dimZ := 1, overlap := 10, overlap_units := "pct" } ∧
    (∃ msg, get_overlap
        { dimX := 2, dimY := 2, dimZ := 1, overlap := 10, overlap_units := "pct" } "um" =
          Except.error msg) ∧
    get_overlap { dimX := 2, dimY := 2, dimZ := 1, overlap := 10, overlap_units := "pct" }
        "pct" = Except.ok 10 :=
  ⟨rfl,
   (C8_get_overlap_no_conversion
      { dimX := 2, dimY := 2, dimZ := 1, overlap := 10, overlap_units := "pct" } "um").1
     (by decide),
   (C8_get_overlap_no_conversion
      { dimX := 2, dimY := 2, dimZ := 1, overlap := 10, overlap_units := "pct" } "um").2 rfl⟩

/-- C10: on a freshly constructed `MosaicDataCuboid` every `get_overlap`
request errors (construction stores unit `'px'`, and even the default
request unit `'pct'` differs from it), and a reachable state can only answer
`get_overlap` successfully after a `set_overlap` call with unit `'pct'`. -/
theorem C10_fresh_overlap_errors (dx dy dz : Int) (u : String) :
    (∃ msg, get_overlap (MosaicCuboidSt.init dx dy dz) u = Except.error msg) ∧
    (∀ ops : List (ℚ × String),
      (get_overlap (applyOverlapOps ops (MosaicCuboidSt.init dx dy dz)) u).isOk = true →
        u = "pct" ∧ ∃ v, (v, "pct") ∈ ops) := by
  constructor
  · by_cases hu : u = "pct"
    · subst hu
      exact ⟨"NotImplementedError: Unit conversion not implemented!",
        by simp [get_overlap, MosaicCuboidSt.init]⟩
    · exact ⟨"TypeError: Unknown overlap unit requested: " ++ u, by simp [get_overlap, hu]⟩
  · intro ops h
    obtain ⟨hu, hst⟩ := get_overlap_ok_units h
    refine ⟨hu, ?_⟩
    rcases applyOverlapOps_units ops (MosaicCuboidSt.init dx dy dz) with heq | ⟨v, hv⟩
    · rw [hst] at heq
      simp [MosaicCuboidSt.init] at heq
    · rw [hst] at hv
      exact ⟨v, hv⟩

/-- Witness for C10: the fresh cuboid rejects the default request, and after
`set_overlap(10, 'pct')` the getter succeeds, forcing a `'pct'` set call in
the history. -/
theorem C10_fresh_overlap_witness :
    (∃ msg, get_overlap (MosaicCuboidSt.init 2 2 1) "pct" = Except.error msg) ∧
    ("pct" = "pct" ∧ ∃ v, (v, "pct") ∈ [((10 : ℚ), "pct")]) :=
  ⟨(C10_fresh_overlap_errors 2 2 1 "pct").1,
   (C10_fresh_overlap_errors 2 2 1 "pct").2 [((10 : ℚ), "pct")] rfl⟩

/-- Helper: the full form of a parsed path is the input string. -/
theorem parse_path_full (q : String) : (parse_path q).full = q := rfl

/-- Helper: the original form of a parsed path is the input string. -/
theorem parse_path_orig (q : String) : (parse_path q).orig = q := rfl

/-- C6 (amended): the literal path, when present, is used unchanged; when it
is missing exactly one repair attempt is made, replacing every occurrence of
the extension substring in the original path by `'_01' + extension` (which
inserts `_01` before the file extension whenever the extension substring
occurs only as the final suffix); if the repaired path is also missing the
constructor fails with a not-found error. -/
theorem C6_validate_filepath_repair (fs : String → Bool) (p : String) :
    (fs p = true → validate_filepath fs (parse_path p) = Except.ok (parse_path p)) ∧
    (fs p = false →
      fs (pyReplace p (parse_path p).ext ("_01" ++ (parse_path p).ext)) = true →
      validate_filepath fs (parse_path p) =
        Except.ok (parse_path (pyReplace p (parse_path p).ext ("_01" ++ (parse_path p).ext)))) ∧
    (fs p = false →
      fs (pyReplace p (parse_path p).ext ("_01" ++ (parse_path p).ext)) = false →
      validate_filepath fs (parse_path p) =
        Except.error ("IOError: file not found: " ++
          pyReplace p (parse_path p).ext ("_01" ++ (parse_path p).ext))) := by
  refine ⟨fun h1 => ?_, fun h1 h2 => ?_, fun h1 h2 => ?_⟩
  · simp [validate_filepath, parse_path_full, h1]
  · simp [validate_filepath, parse_path_full, parse_path_orig, h1, h2]
  · simp [validate_filepath, parse_path_full, parse_path_orig, h1, h2]

/-- Counterexample to C6 as stated: the repair is a global substring
replacement of the extension, not an insertion before the file extension.
For the path `a.oib/a.oib` (extension substring occurring twice) with a
filesystem containing exactly `a.oib/a_01.oib` — the path the claim says the
repair produces — the code still fails with a not-found error because it
tries `a_01.oib/a_01.oib` instead. -/
theorem C6_counterexample_global_replace :
    (fun s => s == "a.oib/a_01.oib") "a.oib/a.oib" = false ∧
    (fun s => s == "a.oib/a_01.oib") (specRepairedPath "a.oib/a.oib") = true ∧
    (validate_filepath (fun s => s == "a.oib/a_01.oib")
      (parse_path "a.oib/a.oib")).isOk = false := by
  refine ⟨by decide, by decide, by decide⟩

/-- Witness for C6 (amended): for the plain path `dir/img.oib` the repair is
exactly the `_01` insertion before the extension, and with neither path
present the validation errors. -/
theorem C6_validate_filepath_witness :
    validate_filepath (fun s => s == "dir/img.oib") (parse_path "dir/img.oib") =
      Except.ok (parse_path "dir/img.oib") ∧
    validate_filepath (fun s => s == "dir/img_01.oib") (parse_path "dir/img.oib") =
      Except.ok (parse_path "dir/img_01.oib") ∧
    validate_filepath (fun _ => false) (parse_path "dir/img.oib") =
      Except.error ("IOError: file not found: " ++ "dir/img_01.oib") := by
  refine ⟨(C6_validate_filepath_repair (fun s => s == "dir/img.oib") "dir/img.oib").1
      (by decide), ?_, ?_⟩
  · have h := (C6_validate_filepath_repair
      (fun s => s == "dir/img_01.oib") "dir/img.oib").2.1 (by decide) (by decide)
    rw [h]
    exact congrArg Except.ok (by decide)
  · have h := (C6_validate_filepath_repair (fun _ => false) "dir/img.oib").2.2 rfl rfl
    rw [h]
    exact congrArg Except.error (by decide)

/-- Helper: `bind` on a successful `Except` applies the continuation. -/
theorem exceptBind_ok {α β : Type} (a : α) (f : α → Except String β) :
    ((Except.ok a : Except String α) >>= f) = f a := rfl

/-- Helper: `pure` into `Except` is `Except.ok`. -/
theorem exceptPure_eq_ok {α : Type} (a : α) :
    (pure a : Except String α) = Except.ok a := rfl

/-- C7: in the Olympus dimension parser, whenever an axis-name field for Z,
Channel or Time differs from its fixed sentinel (`"Z"`, `"Ch"`, `"T"`, each
including the quotes), the corresponding dimension is set to `0` and the
parse still succeeds, returning the remaining dimensions as parsed. -/
theorem C7_parse_dimensions_axis_mismatch
    (get : String → String → Option String)
    (vb vx vy vz az vc ac vt atv : String) (b x y zn cn tn : Int)
    (hb : get "Reference Image Parameter" "ValidBitCounts" = some vb)
    (hx : get "Reference Image Parameter" "ImageHeight" = some vx)
    (hy : get "Reference Image Parameter" "ImageWidth" = some vy)
    (hz : get "Axis 3 Parameters Common" "MaxSize" = some vz)
    (haz : get "Axis 3 Parameters Common" "AxisName" = some az)
    (hc : get "Axis 2 Parameters Common" "MaxSize" = some vc)
    (hac : get "Axis 2 Parameters Common" "AxisName" = some ac)
    (ht : get "Axis 4 Parameters Common" "MaxSize" = some vt)
    (hatv : get "Axis 4 Parameters Common" "AxisName" = some atv)
    (hib : pyInt vb = Except.ok b) (hix : pyInt vx = Except.ok x)
    (hiy : pyInt vy = Except.ok y)
    (hiz : az = "\"Z\"" → pyInt vz = Except.ok zn)
    (hic : ac = "\"Ch\"" → pyInt vc = Except.ok cn)
    (hit : atv = "\"T\"" → pyInt vt = Except.ok tn) :
    parse_dimensions get = Except.ok
      { B := b, C := if ac = "\"Ch\"" then cn else 0,
        T := if atv = "\"T\"" then tn else 0, X := x, Y := y,
        Z := if az = "\"Z\"" then zn else 0 } := by
  simp only [parse_dimensions, hb, hx, hy, hz, haz, hc, hac, ht, hatv, exceptBind_ok]
  by_cases h1 : az = "\"Z\""
  · by_cases h2 : ac = "\"Ch\""
    · by_cases h3 : atv = "\"T\""
      · simp only [if_pos h1, if_pos h2, if_pos h3, hiz h1, hic h2, hit h3,
          exceptBind_ok, exceptPure_eq_ok, hib, hix, hiy]
      · simp only [if_pos h1, if_pos h2, if_neg h3, hiz h1, hic h2,
          exceptBind_ok, exceptPure_eq_ok, hib, hix, hiy]
    · by_cases h3 : atv = "\"T\""
      · simp only [if_pos h1, if_neg h2, if_pos h3, hiz h1, hit h3,
          exceptBind_ok, exceptPure_eq_ok, hib, hix, hiy]
      · simp only [if_pos h1, if_neg h2, if_neg h3, hiz h1,
          exceptBind_ok, exceptPure_eq_ok, hib, hix, hiy]
  · by_cases h2 : ac = "\"Ch\""
    · by_cases h3 : atv = "\"T\""
      · simp only [if_neg h1, if_pos h2, if_pos h3, hic h2, hit h3,
          exceptBind_ok, exceptPure_eq_ok, hib, hix, hiy]
      · simp only [if_neg h1, if_pos h2, if_neg h3, hic h2,
          exceptBind_ok, exceptPure_eq_ok, hib, hix, hiy]
    · by_cases h3 : atv = "\"T\""
      · simp only [if_neg h1, if_neg h2, if_pos h3, hit h3,
          exceptBind_ok, exceptPure_eq_ok, hib, hix, hiy]
      · simp only [if_neg h1, if_neg h2, if_neg h3,
          exceptBind_ok, exceptPure_eq_ok, hib, hix, hiy]

/-- Witness for C7: a metadata table whose channel-axis name is `"Q"`
(mismatching the `"Ch"` sentinel, with a non-numeric channel count) still
parses, with C forced to 0 and all other dimensions as parsed. -/
theorem C7_parse_dimensions_witness :
    parse_dimensions
      (fun sec key =>
        if sec = "Reference Image Parameter" then
          (if key = "ValidBitCounts" then some "16"
           else if key = "ImageHeight" then some "512"
           else if key = "ImageWidth" then some "1024" else none)
        else if key = "MaxSize" then
          (if sec = "Axis 2 Parameters Common" then some "n/a" else some "5")
        else if key = "AxisName" then
          (if sec = "Axis 3 Parameters Common" then some "\"Z\""
           else if sec = "Axis 2 Parameters Common" then some "\"Q\""
           else some "\"T\"")
        else none) =
      Except.ok { B := 16, C := 0, T := 5, X := 512, Y := 1024, Z := 5 } := by
  have h := C7_parse_dimensions_axis_mismatch
    (fun sec key =>
      if sec = "Reference Image Parameter" then
        (if key = "ValidBitCounts" then some "16"
         else if key = "ImageHeight" then some "512"
         else if key = "ImageWidth" then some "1024" else none)
      else if key = "MaxSize" then
        (if sec = "Axis 2 Parameters Common" then some "n/a" else some "5")
      else if key = "AxisName" then
        (if sec = "Axis 3 Parameters Common" then some "\"Z\""
         else if sec = "Axis 2 Parameters Common" then some "\"Q\""
         else some "\"T\"")
      else none)
    "16" "512" "1024" "5" "\"Z\"" "n/a" "\"Q\"" "5" "\"T\"" 16 512 1024 5 0 5
    rfl rfl rfl rfl rfl rfl rfl rfl rfl rfl rfl rfl
    (fun _ => rfl) (fun hq => absurd hq (by decide)) (fun _ => rfl)
  simpa using h

/-- Helper: inserting a tile into a list that is in scan order and sorted by
Y descending, while the new tile's X key dominates every element, keeps the
list in scan order. -/
theorem orderedInsert_scanOrder (a : Tile) :
    ∀ s : List Tile, s.Pairwise scanOrder → s.Pairwise sortByY →
      (∀ b ∈ s, tileKeyX b ≤ tileKeyX a) →
      (s.orderedInsert sortByY a).Pairwise scanOrder := by
  intro s
  induction s with
  | nil =>
    intro _ _ _
    simp [List.orderedInsert]
  | cons b s' ih =>
    intro hp hs hx
    rcases List.pairwise_cons.mp hp with ⟨hpb, hps'⟩
    rcases List.pairwise_cons.mp hs with ⟨hsb, hss'⟩
    by_cases h : sortByY a b
    · rw [List.orderedInsert, if_pos h]
      refine List.pairwise_cons.mpr ⟨?_, hp⟩
      intro c hc
      have hcb : tileKeyY c ≤ tileKeyY a := by
        rcases List.mem_cons.mp hc with rfl | hc'
        · exact h
        · exact le_trans (hsb c hc') h
      rcases lt_or_eq_of_le hcb with hlt | heq
      · exact Or.inl hlt
      · exact Or.inr ⟨heq.symm, hx c hc⟩
    · rw [List.orderedInsert, if_neg h]
      refine List.pairwise_cons.mpr ⟨?_, ?_⟩
      · intro c hc
        rcases (List.mem_orderedInsert sortByY).mp hc with rfl | hc'
        · exact Or.inl (lt_of_not_le h)
        · exact hpb c hc'
      · exact ih hps' hss'
          (fun c hc => hx c (List.mem_cons_of_mem b hc))

/-- Helper: sorting a list that is already X-descending by the Y key with a
stable insertion sort yields the bottom-right-to-top-left scan order. -/
theorem insertionSort_scanOrder (l : List Tile) (h : l.Pairwise sortByX) :
    (l.insertionSort sortByY).Pairwise scanOrder := by
  induction l with
  | nil => simp [List.insertionSort]
  | cons a l ih =>
    rw [List.insertionSort]
    rcases List.pairwise_cons.mp h with ⟨ha, hl⟩
    refine orderedInsert_scanOrder a _ (ih hl) (List.sorted_insertionSort sortByY l) ?_
    intro b hb
    have hxb : tileKeyX b ≤ tileKeyX a := ha b ((List.mem_insertionSort sortByY).mp hb)
    exact hxb

/-- Helper: `bind` on a failed `Except` keeps the error. -/
theorem exceptBind_error {α β : Type} (e : String) (f : α → Except String β) :
    ((Except.error e : Except String α) >>= f) = Except.error e := rfl

/-- C2: for a mosaic whose subvolumes all yield coordinates,
`files_and_coords(sort=True)` is a permutation of
`files_and_coords(sort=False)`, and any tile `a` before a tile `b` in the
sorted output satisfies `a.y > b.y`, or `a.y = b.y` and `a.x ≥ b.x`
(bottom-right-to-top-left scan order from the stable two-key sort). -/
theorem C2_files_and_coords_sorted (m : MosaicSubvols) (ts tu : List Tile)
    (hs : files_and_coords m true = Except.ok ts)
    (hu : files_and_coords m false = Except.ok tu) :
    ts.Perm tu ∧ ts.Pairwise scanOrder := by
  unfold files_and_coords at hs hu
  cases hmap : m.subvol.mapM (tileOfSubvol m.path) with
  | error e =>
    rw [hmap, exceptBind_error] at hs
    exact Except.noConfusion hs
  | ok tiles =>
    rw [hmap, exceptBind_ok] at hs hu
    simp only [if_true, exceptPure_eq_ok] at hs
    simp only [Bool.false_eq_true, if_false, exceptPure_eq_ok] at hu
    have hts : List.insertionSort sortByY (List.insertionSort sortByX tiles) = ts :=
      Except.ok.inj hs
    have htu : tiles = tu := Except.ok.inj hu
    subst hts
    subst htu
    constructor
    · exact (List.perm_insertionSort sortByY _).trans (List.perm_insertionSort sortByX _)
    · exact insertionSort_scanOrder _ (List.sorted_insertionSort sortByX _)

/-- Witness for C2 on a three-tile mosaic with coordinates `(0,0)`, `(90,0)`,
`(0,80)`: the sorted list is a permutation of the unsorted one and is in scan
order. -/
theorem C2_files_and_coords_witness :
    List.Perm
      [(("c.oif" : String), [(0 : ℚ), 80]), ("b.oif", [90, 0]), ("a.oif", [0, 0])]
      [(("a.oif" : String), [(0 : ℚ), 0]), ("b.oif", [90, 0]), ("c.oif", [0, 80])] ∧
    List.Pairwise scanOrder
      [(("c.oif" : String), [(0 : ℚ), 80]), ("b.oif", [90, 0]), ("a.oif", [0, 0])] :=
  C2_files_and_coords_sorted
    { path := "/data/",
      subvol := [{ full := "/data/a.oif", relative := some [0, 0] },
                 { full := "/data/b.oif", relative := some [90, 0] },
                 { full := "/data/c.oif", relative := some [0, 80] }] }
    [("c.oif", [0, 80]), ("b.oif", [90, 0]), ("a.oif", [0, 0])]
    [("a.oif", [0, 0]), ("b.oif", [90, 0]), ("c.oif", [0, 80])]
    rfl rfl

/-- C3: in the scanned-binary XML extractor, (1) a run below 100 characters
or without the XML declaration is discarded with the found-set unchanged and
no early return; (2) per target tag, the found slot changes only if the run
holds the tag's opening marker, and any newly accepted fragment is the run
truncated after its last `>`; (3) an early return only happens once both
fragments are present; (4) as soon as a closed run makes both fragments
available, scanning returns immediately, ignoring the rest of the stream;
(5) reaching end of input raises the fatal error (the scanner is a total
function, so it cannot loop forever). -/
theorem C3_get_xml_sections_scan :
    (∀ (run : List Char) (found : ScanFound),
      run.length < 100 ∨ containsSub xmlDeclMark run = false →
      processRun run found = Sum.inl found) ∧
    (∀ (run : List Char) (found : ScanFound),
      (containsSub ('<' :: tagFrame) run = false →
        (runResult (processRun run found)).frame = found.frame) ∧
      ((runResult (processRun run found)).frame ≠ found.frame →
        (runResult (processRun run found)).frame = some (truncAfterLastGt run)) ∧
      (containsSub ('<' :: tagImage) run = false →
        (runResult (processRun run found)).image = found.image) ∧
      ((runResult (processRun run found)).image ≠ found.image →
        (runResult (processRun run found)).image = some (truncAfterLastGt run))) ∧
    (∀ (run : List Char) (found res : ScanFound),
      processRun run found = Sum.inr res → res.count = 2) ∧
    (∀ (c : Char) (rest collected : List Char) (found res : ScanFound),
      printableChar c = false → processRun collected found = Sum.inr res →
      scanGo (c :: rest) collected found = Except.ok res) ∧
    (∀ (collected : List Char) (found : ScanFound),
      scanGo [] collected found =
        Except.error "ValueError: Couldn't find all requested XML blocks!") := by
  refine ⟨?_, ?_, ?_, ?_, fun _ _ => rfl⟩
  · intro run found h
    have hcond : (decide (run.length < 100) || !containsSub xmlDeclMark run) = true := by
      rcases h with h | h
      · simp [h]
      · simp [h]
    simp [processRun, hcond]
  · intro run found
    by_cases hrej : (decide (run.length < 100) || !containsSub xmlDeclMark run) = true
    · simp [processRun, runResult, hrej]
    · rw [Bool.not_eq_true] at hrej
      by_cases hf : containsSub ('<' :: tagFrame) run = true
      · by_cases hi : containsSub ('<' :: tagImage) run = true
        · refine ⟨fun hff => by rw [hff] at hf; exact Bool.noConfusion hf, ?_, ?_, ?_⟩ <;>
            simp [processRun, runResult, hrej, hf, hi] <;>
            split_ifs <;> simp
        · refine ⟨fun hff => by rw [hff] at hf; exact Bool.noConfusion hf, ?_, ?_, ?_⟩ <;>
            simp [processRun, runResult, hrej, hf, hi] <;>
            split_ifs <;> simp
      · rw [Bool.not_eq_true] at hf
        by_cases hi : containsSub ('<' :: tagImage) run = true
        · refine ⟨?_, ?_, fun hii => by rw [hii] at hi; exact Bool.noConfusion hi, ?_⟩ <;>
            simp [processRun, runResult, hrej, hf, hi] <;>
            split_ifs <;> simp
        · rw [Bool.not_eq_true] at hi
          simp [processRun, runResult, hrej, hf, hi]
  · intro run found res h
    unfold processRun at h
    by_cases hrej : (decide (run.length < 100) || !containsSub xmlDeclMark run) = true
    · rw [if_pos hrej] at h
      exact Sum.noConfusion h
    · rw [if_neg hrej] at h
      by_cases hf : containsSub ('<' :: tagFrame) run = true <;>
        by_cases hi : containsSub ('<' :: tagImage) run = true <;>
        simp only [hf, hi, Bool.true_and, Bool.false_and, Bool.false_eq_true, if_false,
          Bool.not_eq_true, if_true] at h <;>
        repeat' split at h
      all_goals
        first
          | exact Sum.noConfusion h
          | (injection h with h'
             subst h'
             rename_i hcnd
             exact beq_iff_eq.mp hcnd)
  · intro c rest collected found res hc hp
    unfold scanGo
    rw [if_neg (by simp [hc]), hp]

/-- Witness for C3: a short run is discarded; on the demo run, with the
image fragment already found, the scanner stores the truncated frame
fragment, reaches both-found, and returns immediately regardless of the rest
of the stream; the returned dict has both entries; an exhausted stream is
the fatal error. -/
theorem C3_get_xml_sections_witness :
    processRun "abc".toList { frame := none, image := none } =
      Sum.inl { frame := none, image := none } ∧
    scanGo ('\x00' :: "ignored trailing stream".toList) oirDemoRun oirDemoFound =
      Except.ok { frame := some (truncAfterLastGt oirDemoRun), image := some ['q'] } ∧
    ScanFound.count { frame := some (truncAfterLastGt oirDemoRun), image := some ['q'] } = 2 ∧
    scanGo [] [] { frame := none, image := none } =
      Except.error "ValueError: Couldn't find all requested XML blocks!" :=
  ⟨C3_get_xml_sections_scan.1 "abc".toList { frame := none, image := none }
      (Or.inl (by decide)),
   C3_get_xml_sections_scan.2.2.2.1 '\x00' "ignored trailing stream".toList oirDemoRun
      oirDemoFound { frame := some (truncAfterLastGt oirDemoRun), image := some ['q'] }
      (by decide) (by decide),
   C3_get_xml_sections_scan.2.2.1 oirDemoRun oirDemoFound
      { frame := some (truncAfterLastGt oirDemoRun), image := some ['q'] } (by decide),
   C3_get_xml_sections_scan.2.2.2.2 [] { frame := none, image := none }⟩

/-- Helper: the per-tile loop stops at the first failing tile when all tiles
before it succeed. -/
theorem collectTilesA_first_error (step : ImageInfoXml → Except TileFail ImageDataSt)
    (okTiles : List ImageInfoXml) (bad : ImageInfoXml) (restTiles : List ImageInfoXml)
    (e : TileFail)
    (hok : ∀ t ∈ okTiles, ∃ sv, step t = Except.ok sv)
    (hbad : step bad = Except.error e) :
    collectTilesA step (okTiles ++ bad :: restTiles) = Except.error e := by
  induction okTiles with
  | nil => simp [collectTilesA, hbad]
  | cons t ts ih =>
    obtain ⟨sv, hsv⟩ := hok t (List.mem_cons_self t ts)
    have ih' := ih (fun t' ht' => hok t' (List.mem_cons_of_mem t ht'))
    simp only [List.cons_append, collectTilesA, List.append_eq, hsv, ih']

/-- C4: in the Dialect A parser, if a per-tile instantiation fails with a
not-found error (all tiles before it succeeding), the whole mosaic is
discarded — `add_mosaic` adds nothing and records the two warnings, the
second naming the first offending tile — and `add_mosaics` continues with
the remaining mosaic subtrees unchanged. -/
theorem C4_mosaic_discarded_on_missing_tile
    (fs : String → Bool) (dimsOf : String → Except String Dims) (basePath : String)
    (tree : MosaicTreeXml) (trees : List MosaicTreeXml)
    (okTiles : List ImageInfoXml) (bad : ImageInfoXml) (restTiles : List ImageInfoXml)
    (cub : MosaicCuboidSt) (msg : String)
    (hx : tree.xscan = "LeftToRight") (hy : tree.yscan = "TopToBottom")
    (himg : tree.images = okTiles ++ bad :: restTiles)
    (hcub : set_overlap (100 - tree.indexRatio) "pct"
        (MosaicCuboidSt.init tree.ximages tree.yimages 1) = Except.ok cub)
    (hok : ∀ t ∈ okTiles, ∃ sv, parseTileA fs dimsOf basePath cub t = Except.ok sv)
    (hbad : parseTileA fs dimsOf basePath cub bad =
        Except.error (TileFail.notFound bad.filename msg)) :
    add_mosaic fs dimsOf basePath tree (-1) =
      Except.ok (none,
        ["Mosaic " ++ toString tree.attrNo ++ ": incomplete subvolumes, SKIPPING!",
         "First incomplete/missing subvolume: " ++ bad.filename]) ∧
    (∀ restDs restWs,
      add_mosaics fs dimsOf basePath trees = Except.ok (restDs, restWs) →
      add_mosaics fs dimsOf basePath (tree :: trees) =
        Except.ok (restDs,
          ["Mosaic " ++ toString tree.attrNo ++ ": incomplete subvolumes, SKIPPING!",
           "First incomplete/missing subvolume: " ++ bad.filename] ++ restWs)) := by
  have hcoll : collectTilesA (parseTileA fs dimsOf basePath cub) tree.images =
      Except.error (TileFail.notFound bad.filename msg) := by
    rw [himg]
    exact collectTilesA_first_error _ okTiles bad restTiles _ hok hbad
  have hmain : add_mosaic fs dimsOf basePath tree (-1) =
      Except.ok (none,
        ["Mosaic " ++ toString tree.attrNo ++ ": incomplete subvolumes, SKIPPING!",
         "First incomplete/missing subvolume: " ++ bad.filename]) := by
    unfold add_mosaic
    rw [if_neg (by simp [hx, hy])]
    simp [hcub, hcoll]
  refine ⟨hmain, ?_⟩
  intro restDs restWs hrest
  unfold add_mosaics
  rw [hmain, hrest]
  rfl

/-- Witness for C4: a one-tile mosaic whose tile file is absent from the
filesystem is skipped with the two warnings, and a project holding only this
mosaic parses to an empty experiment with those warnings. -/
theorem C4_mosaic_discarded_witness :
    add_mosaic (fun _ => false) (fun _ => Except.error "unused") "p/"
      { attrNo := 0, xscan := "LeftToRight", yscan := "TopToBottom", ximages := 1,
        yimages := 1, indexRatio := 90,
        images := [{ filename := "t.oif", xpos := 0, ypos := 0, xno := 0, yno := 0, no := 1 }] }
      (-1) =
      Except.ok (none,
        ["Mosaic 0: incomplete subvolumes, SKIPPING!",
         "First incomplete/missing subvolume: t.oif"]) ∧
    add_mosaics (fun _ => false) (fun _ => Except.error "unused") "p/"
      [{ attrNo := 0, xscan := "LeftToRight", yscan := "TopToBottom", ximages := 1,
         yimages := 1, indexRatio := 90,
         images := [{ filename := "t.oif", xpos := 0, ypos := 0, xno := 0, yno := 0, no := 1 }] }] =
      Except.ok ([],
        ["Mosaic 0: incomplete subvolumes, SKIPPING!",
         "First incomplete/missing subvolume: t.oif"]) := by
  have h := C4_mosaic_discarded_on_missing_tile
    (fun _ => false) (fun _ => Except.error "unused") "p/"
    { attrNo := 0, xscan := "LeftToRight", yscan := "TopToBottom", ximages := 1,
      yimages := 1, indexRatio := 90,
      images := [{ filename := "t.oif", xpos := 0, ypos := 0, xno := 0, yno := 0, no := 1 }] }
    [] []
    { filename := "t.oif", xpos := 0, ypos := 0, xno := 0, yno := 0, no := 1 }
    []
    { dimX := 1, dimY := 1, dimZ := 1, overlap := 100 - 90, overlap_units := "pct" }
    ("IOError: file not found: " ++ "p/t_01.oif")
    rfl rfl rfl rfl (fun t ht => absurd ht (List.not_mem_nil t)) rfl
  exact ⟨h.1, h.2 [] [] rfl⟩

/-- Helper: `Except.map` over a success applies the function. -/
theorem exceptMap_ok {α β : Type} (f : α → β) (a : α) :
    Except.map f (Except.ok a : Except String α) = Except.ok (f a) := rfl

/-- Helper: once the common tile-size cache is populated (non-sentinel),
every further `parse_area` leaves the cache unchanged, invokes no parser and
forces each tile's dimensions to the cached size. -/
theorem parse_areas_cached (dimsOf : String → Dims) (overlap : ℚ) (ts : Dims)
    (hX : ts.X ≠ -1) (hY : ts.Y ≠ -1) :
    ∀ rest : List AreaXml,
      ((parse_areas dimsOf true overlap ts rest).2.map (fun p => p.2)) =
        List.replicate rest.length 0 ∧
      ((parse_areas dimsOf true overlap ts rest).2.map (fun p => p.1.map ImageDataSt.dim)) =
        List.replicate rest.length (Except.ok (some ts)) := by
  intro rest
  induction rest with
  | nil => simp [parse_areas]
  | cons a rest ih =>
    simp [parse_areas, parse_area, set_tilenumbers, set_stagecoords, ImageDataSt.fresh,
      get_dimensions, set_relpos, hX, hY, ih.1, ih.2, exceptMap_ok, List.replicate_succ]

/-- C9: with the common-tile-size option enabled, processing a mosaic's areas
from the initial sentinel cache parses the dimensions of the first tile only
(one parser invocation for the first tile, none for any later tile) and
forces every tile's dimensions to the first tile's parsed size. -/
theorem C9_common_tile_size_single_parse (dimsOf : String → Dims) (overlap : ℚ)
    (a : AreaXml) (rest : List AreaXml)
    (hX : (dimsOf a.image).X ≠ -1) (hY : (dimsOf a.image).Y ≠ -1) :
    ((parse_areas dimsOf true overlap fv3kInitTileSize (a :: rest)).2.map (fun p => p.2)) =
      1 :: List.replicate rest.length 0 ∧
    ((parse_areas dimsOf true overlap fv3kInitTileSize (a :: rest)).2.map
        (fun p => p.1.map ImageDataSt.dim)) =
      Except.ok (some (dimsOf a.image)) ::
        List.replicate rest.length (Except.ok (some (dimsOf a.image))) := by
  have hsent : fv3kInitTileSize.X = -1 ∨ fv3kInitTileSize.Y = -1 := Or.inl rfl
  have htail := parse_areas_cached dimsOf overlap (dimsOf a.image) hX hY rest
  constructor
  · simp only [parse_areas, parse_area, set_tilenumbers, set_stagecoords, ImageDataSt.fresh,
      get_dimensions, set_relpos, if_pos hsent, List.map_cons]
    simp [htail.1, exceptMap_ok]
  · simp only [parse_areas, parse_area, set_tilenumbers, set_stagecoords, ImageDataSt.fresh,
      get_dimensions, set_relpos, if_pos hsent, List.map_cons]
    simp [htail.2, exceptMap_ok]

/-- Witness for C9: three areas with the common-tile-size option invoke the
dimension parser once (for the first tile) and all three tiles end up with
the first tile's dimensions. -/
theorem C9_common_tile_size_witness :
    ((parse_areas (fun _ => { B := 16, C := 1, T := 1, X := 512, Y := 512, Z := 5 }) true 10
        fv3kInitTileSize
        [{ image := "a0.oir", xIndex := 0, yIndex := 0 },
         { image := "a1.oir", xIndex := 1, yIndex := 0 },
         { image := "a2.oir", xIndex := 0, yIndex := 1 }]).2.map (fun p => p.2)) =
      [1, 0, 0] ∧
    ((parse_areas (fun _ => { B := 16, C := 1, T := 1, X := 512, Y := 512, Z := 5 }) true 10
        fv3kInitTileSize
        [{ image := "a0.oir", xIndex := 0, yIndex := 0 },
         { image := "a1.oir", xIndex := 1, yIndex := 0 },
         { image := "a2.oir", xIndex := 0, yIndex := 1 }]).2.map
        (fun p => p.1.map ImageDataSt.dim)) =
      [Except.ok (some { B := 16, C := 1, T := 1, X := 512, Y := 512, Z := 5 }),
       Except.ok (some { B := 16, C := 1, T := 1, X := 512, Y := 512, Z := 5 }),
       Except.ok (some { B := 16, C := 1, T := 1, X := 512, Y := 512, Z := 5 })] := by
  have h := C9_common_tile_size_single_parse
    (fun _ => { B := 16, C := 1, T := 1, X := 512, Y := 512, Z := 5 }) 10
    { image := "a0.oir", xIndex := 0, yIndex := 0 }
    [{ image := "a1.oir", xIndex := 1, yIndex := 0 },
     { image := "a2.oir", xIndex := 0, yIndex := 1 }]
    (by decide) (by decide)
  exact ⟨by simpa using h.1, by simpa using h.2⟩
